import Mathlib

/-!
Verification of the conversation session state machine of `streamlit_app.py`
(investment research screener chat).  The Python source is shallowly embedded:
Streamlit's `st.session_state` becomes the `SessionState` structure, the
Supabase tables become the `Store` structure, and the per-interaction script
run of `chat_tab` becomes a pure function from (state, store, input, external
call outcome) to the next (state, store).  `none` as the result of `chat_tab`
models an uncaught Python exception escaping the function.
-/

set_option linter.unusedVariables false

namespace App

/-- An in-memory chat message, an element of `st.session_state.messages`. -/
structure Msg where
  role : String
  content : String
deriving Repr, DecidableEq

/-- A conversation row as returned to the client:
`{id, title, created_at}` (`created_at` modelled as an insertion counter). -/
structure ConvRow where
  id : Nat
  title : String
  created_at : Nat
deriving Repr, DecidableEq

/-- A row of the `user_conversations` table. -/
structure StoredConv where
  id : Nat
  user_id : Option Nat
  title : String
  status : String
  created_at : Nat
deriving Repr, DecidableEq

/-- A row of the `messages` table; rows are kept in insertion order,
which is chronological (`created_at` ascending). -/
structure StoredMsg where
  conversation_id : Nat
  role : String
  content : String
  status : String
deriving Repr, DecidableEq

/-- The durable store (the two Supabase tables used by the chat core).
`next_conv_id` generates conversation ids and doubles as the creation
timestamp counter. -/
structure Store where
  convs : List StoredConv
  msgs : List StoredMsg
  next_conv_id : Nat
deriving Repr, DecidableEq

/-- `st.session_state`.  Fields that Python can set to `None` while they
normally hold a string or a list are modelled with `Option`:
`user_email` is `""` on initialisation but `None` after sign-out, and
`messages` is `[]` on initialisation but `None` after sign-out. -/
structure SessionState where
  logged_in : Bool
  user_email : Option String
  user_id : Option Nat
  conversation_id : Option Nat
  conversation_history : List ConvRow
  messages : Option (List Msg)
  pick_conv : Option Nat
deriving Repr, DecidableEq

/-- `init_session_state`: the defaults dictionary, applied to a fresh process
(every key absent, so every default is taken). -/
def init_session_state : SessionState :=
  { logged_in := false
    user_email := some ""
    user_id := none
    conversation_id := none
    conversation_history := []
    messages := some []
    pick_conv := none }

/-- `sign_out`: for each key in
`["logged_in", "user_email", "user_id", "conversation_id", "messages", "pick_conv"]`
the value becomes `False` if it is a boolean and `None` otherwise.  In this
model `logged_in` is the only boolean field, so it becomes `false` and the
other five become `none`.  `conversation_history` is not in the list and is
left untouched. -/
def sign_out (s : SessionState) : SessionState :=
  { s with
    logged_in := false
    user_email := none
    user_id := none
    conversation_id := none
    messages := none
    pick_conv := none }

/-- Python list slicing `l[-k:]`: the last `k` elements — except that for
`k = 0` the slice `l[-0:]` is `l[0:]`, the whole list. -/
def py_slice_last {α : Type} (k : Nat) (l : List α) : List α :=
  if k = 0 then l else l.drop (l.length - k)

/-- Python whitespace for `str.strip()`: space, tab, newline, carriage
return, vertical tab, form feed. -/
def py_is_space (c : Char) : Bool :=
  c == ' ' || c == '\t' || c == '\n' || c == '\r' || c == '\x0b' || c == '\x0c'

/-- Drop leading whitespace characters. -/
def strip_left : List Char → List Char
  | [] => []
  | c :: cs => if py_is_space c then strip_left cs else c :: cs

/-- Python `str.strip()`: whitespace removed from both ends. -/
def py_strip (s : String) : String :=
  String.mk ((strip_left (strip_left s.data).reverse).reverse)

/-- One line of the context snippet: `f"{role}: {m['content']}"` with
`role = "USER" if m["role"] == "user" else "ASSISTANT"`. -/
def role_line (m : Msg) : String :=
  (if m.role == "user" then "USER" else "ASSISTANT") ++ ": " ++ m.content

/-- The messages that `build_context` keeps: `msgs[-2 * max_turns:]`. -/
def build_context_msgs (messages : List Msg) (max_turns : Nat) : List Msg :=
  py_slice_last (2 * max_turns) messages

/-- `build_context`: the compact conversation snippet of the last
`max_turns` pairs, role-tagged lines joined with newlines. -/
def build_context (messages : List Msg) (max_turns : Nat := 3) : String :=
  String.intercalate "\n" ((build_context_msgs messages max_turns).map role_line)

/-- Upper-case hexadecimal digit, for percent-encoding. -/
def hex_digit_upper (n : Nat) : Char :=
  if n < 10 then Char.ofNat (48 + n) else Char.ofNat (55 + n)

/-- `%XX` encoding of one byte. -/
def percent_byte (b : UInt8) : String :=
  "%" ++ String.singleton (hex_digit_upper (b.toNat / 16))
      ++ String.singleton (hex_digit_upper (b.toNat % 16))

/-- `urllib.parse.quote_plus`: spaces to `+`, ASCII alphanumerics and
`_ . - ~` kept, everything else percent-encoded byte by byte (UTF-8). -/
def quote_plus (s : String) : String :=
  String.join (s.toList.map fun c =>
    if c = ' ' then "+"
    else if c.isAlphanum || c == '_' || c == '.' || c == '-' || c == '~' then
      String.singleton c
    else
      String.join (((String.singleton c).toUTF8.toList).map percent_byte))

/-- `query_url`: the screener link derived from the generated query. -/
def query_url (query : String) : String :=
  "https://www.screener.in/screen/raw/?sort=&order=&source_id=&query="
    ++ quote_plus query
    ++ "&page=1"

/-- The fixed instruction text prepended to the user's input
(`QUERY_PREFIX` in `chat_tab`). -/
def QUERY_PREFIX : String := "get query for this\n\n"

/-- The fixed user-visible error text produced on every pipeline failure
branch of `chat_tab`. -/
def err_msg : String := "⚠️ **Error**: Could not process your request. Please try again."

/-- The string actually sent in `fetch_research`: `f"{context}\n\n{query}"`
when `context` is truthy (non-empty), else `query` alone. -/
def combined_query (query : String) (context : String) : String :=
  if context = "" then query else context ++ "\n\n" ++ query

end App

/-- A JSON value, for the research service's response (`resp.json()`) and
the outbound payload. -/
inductive Json where
  | null
  | bool (b : Bool)
  | str (s : String)
  | num (n : Int)
  | arr (elems : List Json)
  | obj (fields : List (String × Json))

namespace Json

/-- Python truthiness of a JSON value. -/
def truthy : Json → Bool
  | .null => false
  | .bool b => b
  | .str s => s != ""
  | .num n => n != 0
  | .arr elems => !elems.isEmpty
  | .obj fields => !fields.isEmpty

/-- `isinstance(result, dict)`. -/
def isObj : Json → Bool
  | .obj _ => true
  | _ => false

/-- `d.get(key, default)` on a value known to be a dict (after the
`isinstance` guard); on a non-dict the default is returned, but the code
only applies this form to checked dicts. -/
def get (j : Json) (key : String) (default : Json) : Json :=
  match j with
  | .obj fields =>
      match fields.find? (fun p => p.1 == key) with
      | some p => p.2
      | none => default
  | _ => default

/-- `d.get(key, default)` on a value that might not be a dict: Python
raises `AttributeError` then, modelled as `none`. -/
def dget (j : Json) (key : String) (default : Json) : Option Json :=
  match j with
  | .obj fields =>
      some (match fields.find? (fun p => p.1 == key) with
            | some p => p.2
            | none => default)
  | _ => none

/-- String extraction: Python string concatenation `"…" + v` raises
`TypeError` unless `v` is a `str`. -/
def asStr : Json → Option String
  | .str s => some s
  | _ => none

end Json

namespace App

/-- The payload `{"query": combined_query}` that `fetch_research` posts —
a single JSON field, nothing else on the wire. -/
def fetch_research_payload (query : String) (context : String) : Json :=
  Json.obj [("query", Json.str (combined_query query context))]

/-- `create_conversation(user_id, title)`: inserts an active row and
returns `{id, title or "", created_at}`. -/
def create_conversation (st : Store) (user_id : Option Nat) (title : String) :
    ConvRow × Store :=
  let row : StoredConv :=
    { id := st.next_conv_id, user_id := user_id, title := title
      status := "active", created_at := st.next_conv_id }
  ({ id := row.id
     title := if title = "" then "" else title
     created_at := row.created_at },
   { st with convs := st.convs ++ [row], next_conv_id := st.next_conv_id + 1 })

/-- `save_message(conv_id, role, content)`: append an active row to the
`messages` table. -/
def save_message (st : Store) (conv_id : Nat) (role : String) (content : String) :
    Store :=
  { st with msgs := st.msgs ++
      [{ conversation_id := conv_id, role := role, content := content, status := "active" }] }

/-- `load_messages(conv_id)`: the active messages of a conversation in
chronological order, projected to `{role, content}`. -/
def load_messages (st : Store) (conv_id : Nat) : List Msg :=
  (st.msgs.filter fun m => m.conversation_id == conv_id && m.status == "active").map
    fun m => { role := m.role, content := m.content }

/-- `list_conversations(user_id)`: `[]` when `user_id` is falsy (Python
`if not user_id`, so `None` and `0` both), else the user's active
conversations newest-created first (`created_at` grows with insertion, so
newest first is the reverse of insertion order). -/
def list_conversations (st : Store) (user_id : Option Nat) : List ConvRow :=
  if user_id = none ∨ user_id = some 0 then []
  else
    ((st.convs.filter fun c => c.user_id == user_id && c.status == "active").map
      fun c => ({ id := c.id, title := c.title, created_at := c.created_at } : ConvRow)).reverse

/-- The `on_change` callback of the sidebar selectbox
(`handle_conv_change` in `sidebar_history`): reads the current selectbox
value `pick_conv`; `None` means the "new conversation" option. -/
def handle_conv_change (s : SessionState) (st : Store) : SessionState :=
  match s.pick_conv with
  | none => { s with conversation_id := none, messages := some [] }
  | some sel => { s with conversation_id := some sel, messages := some (load_messages st sel) }

/-- A user-driven selector change event: Streamlit stores the newly picked
value into the widget's key `pick_conv` and then runs the `on_change`
callback. -/
def selector_change (s : SessionState) (st : Store) (new_value : Option Nat) :
    SessionState :=
  handle_conv_change { s with pick_conv := new_value } st

/-- The reconciliation in `sidebar_history` before the selectbox is built:
if `pick_conv != conversation_id` (stale from a prior cycle), force
`pick_conv := conversation_id`. -/
def sidebar_reconcile (s : SessionState) : SessionState :=
  if s.pick_conv ≠ s.conversation_id then { s with pick_conv := s.conversation_id } else s

/-- `ensure_conv_for_first_msg`: if no conversation is selected, create one
with title `" "`, select it, and push its row onto the head of
`conversation_history`.  `pick_conv` is not touched. -/
def ensure_conv_for_first_msg (s : SessionState) (st : Store) :
    SessionState × Store :=
  match s.conversation_id with
  | none =>
      let cs := create_conversation st s.user_id " "
      ({ s with
          conversation_id := some cs.1.id
          conversation_history := cs.1 :: s.conversation_history }, cs.2)
  | some _ => (s, st)

/-- The outcome of the `fetch_research` call as seen by `chat_tab`:
either some exception (transport error, non-2xx via `raise_for_status`,
missing `API_URL`, JSON decode error) or the decoded response value. -/
inductive ApiOutcome where
  | raise
  | ok (result : Json)

/-- The success-branch composition of `chat_tab` (lines after the
`success` guard): builds the assistant message from `data.analysis.thought`,
`data.analysis.objectives` and `data.query`.  Returns `none` where Python
would raise (`.get` on a non-dict, string concatenation with a non-string,
iteration over a non-iterable).  Python iteration over a string yields its
characters and over a dict its keys; both are modelled. -/
def composeOk (result : Json) : Option String := do
  let data := result.get "data" (Json.obj [])
  let analysis ← data.dget "analysis" (Json.obj [])
  let generated_query ← data.dget "query" Json.null
  let thought ← analysis.dget "thought" Json.null
  let objectives ← analysis.dget "objectives" Json.null
  let thought_chunks ←
    if thought.truthy then
      match thought.asStr with
      | some t => some ["**💭 Thought**\n" ++ t]
      | none => none
    else some []
  let objective_chunks ←
    if objectives.truthy then
      match objectives with
      | Json.arr elems => do
          let ss ← elems.mapM Json.asStr
          some ["**🎯 Objectives**\n" ++ String.intercalate "\n" (ss.map fun o => "- " ++ o)]
      | Json.str t =>
          some ["**🎯 Objectives**\n" ++
            String.intercalate "\n" (t.toList.map fun ch => "- " ++ String.singleton ch)]
      | Json.obj fs =>
          some ["**🎯 Objectives**\n" ++ String.intercalate "\n" (fs.map fun p => "- " ++ p.1)]
      | _ => none
    else some []
  let query_chunks ←
    if generated_query.truthy then
      match generated_query.asStr with
      | some q =>
          some ["**🔍 Generated Query**\n```sql\n" ++ q ++ "\n```\n[View on Screener]("
                ++ query_url q ++ ")"]
      | none => none
    else some []
  some (String.intercalate "\n\n" (thought_chunks ++ objective_chunks ++ query_chunks))

/-- The request that `chat_tab` sends for truthy, non-whitespace input `m`
given the in-memory log `cur` before the optimistic append: the context
snippet is built at line 309, after the user's message was appended. -/
def chat_tab_wire (cur : List Msg) (m : String) : Json :=
  fetch_research_payload (QUERY_PREFIX ++ m) (build_context (cur ++ [⟨"user", m⟩]) 3)

/-- The outcome of one run of `chat_tab`'s input-handling logic. -/
structure CycleResult where
  session : SessionState
  store : Store
  api_called : Bool
deriving Repr, DecidableEq

/-- One run of `chat_tab` given the submitted input (`none` when nothing was
submitted) and the oracle outcome of the external call (consulted only when
the call is made).  Result `none` models an uncaught exception escaping
`chat_tab`.  Mirrors the source exactly: a truthy input first runs
`ensure_conv_for_first_msg`, appends the user message to
`st.session_state.messages` and persists it with `save_message`; only an
input whose `strip()` is also truthy reaches the external call; each failure
branch persists `err_msg` as an assistant message without appending it to
the in-memory log; the success branch appends and persists the composed
assistant message. -/
def chat_tab (s : SessionState) (st : Store) (user_msg : Option String)
    (api : ApiOutcome) : Option CycleResult :=
  match s.messages with
  | none => none
  | some cur =>
    match user_msg with
    | none => some ⟨s, st, false⟩
    | some m =>
      if m = "" then some ⟨s, st, false⟩
      else
        let es := ensure_conv_for_first_msg s st
        match es.1.conversation_id with
        | none => none
        | some cid =>
          let s2 : SessionState := { es.1 with messages := some (cur ++ [⟨"user", m⟩]) }
          let st2 := save_message es.2 cid "user" m
          if py_strip m = "" then some ⟨s2, st2, false⟩
          else
            match api with
            | ApiOutcome.raise =>
                some ⟨s2, save_message st2 cid "assistant" err_msg, true⟩
            | ApiOutcome.ok result =>
                if result.isObj = false then
                  some ⟨s2, save_message st2 cid "assistant" err_msg, true⟩
                else if (result.get "success" (Json.bool true)).truthy = false then
                  some ⟨s2, save_message st2 cid "assistant" err_msg, true⟩
                else
                  match composeOk result with
                  | none => none
                  | some assistant_msg =>
                      some ⟨{ s2 with
                                messages := some (cur ++ [⟨"user", m⟩, ⟨"assistant", assistant_msg⟩]) },
                            save_message st2 cid "assistant" assistant_msg, true⟩

end App

namespace App

/-! ## Shared concrete instances and helper lemmas -/

/-- A concrete logged-in session with no conversation selected. -/
def demo_session : SessionState :=
  { init_session_state with logged_in := true, user_id := some 7 }

/-- An empty store. -/
def demo_store : Store := { convs := [], msgs := [], next_conv_id := 0 }

/-- The conversation id selected once `ensure_conv_for_first_msg` has run:
the already selected one, or the freshly created one. -/
def ensure_cid (s : SessionState) (st : Store) : Nat :=
  match s.conversation_id with
  | none => st.next_conv_id
  | some c => c

theorem ensure_conv_id_eq (s : SessionState) (st : Store) :
    (ensure_conv_for_first_msg s st).1.conversation_id = some (ensure_cid s st) := by
  cases h : s.conversation_id <;>
    simp [ensure_conv_for_first_msg, ensure_cid, create_conversation, h]

theorem ensure_conv_messages_eq (s : SessionState) (st : Store) :
    (ensure_conv_for_first_msg s st).1.messages = s.messages := by
  cases h : s.conversation_id <;> simp [ensure_conv_for_first_msg, h]

theorem ensure_conv_pick_eq (s : SessionState) (st : Store) :
    (ensure_conv_for_first_msg s st).1.pick_conv = s.pick_conv := by
  cases h : s.conversation_id <;> simp [ensure_conv_for_first_msg, h]

/-! ## C8: what sign-out actually resets -/

/-- A logged-in session mid-conversation, for the concrete instances. -/
def c8_state : SessionState :=
  { logged_in := true, user_email := some "a@b.c", user_id := some 7
    conversation_id := some 0, conversation_history := [⟨0, " ", 0⟩]
    messages := some [⟨"user", "hi"⟩], pick_conv := some 0 }

/-- C8 counterexample: sign-out does not restore the initialization
defaults.  On a concrete mid-conversation state, the state after `sign_out`
differs from a fresh initialization: `messages` becomes `None` rather than
`[]`, `user_email` becomes `None` rather than `""`, and
`conversation_history` is not cleared. -/
theorem c8_counterexample :
    sign_out c8_state ≠ init_session_state ∧
    (sign_out c8_state).messages = none ∧
    init_session_state.messages = some [] ∧
    (sign_out c8_state).user_email = none ∧
    init_session_state.user_email = some "" ∧
    (sign_out c8_state).conversation_history = [⟨0, " ", 0⟩] ∧
    init_session_state.conversation_history = [] := by
  refine ⟨by decide, rfl, rfl, rfl, rfl, rfl, rfl⟩

/-- C8 (amended): sign-out sets `logged_in` to `false` and sets
`user_email`, `user_id`, `conversation_id`, `messages` and `pick_conv` to
`None` (not to their initialization defaults `""` and `[]`), and leaves
`conversation_history` untouched; so the state after sign-out is not the
fresh-process state. -/
theorem c8_amended (s : SessionState) :
    sign_out s =
      { logged_in := false, user_email := none, user_id := none
        conversation_id := none, conversation_history := s.conversation_history
        messages := none, pick_conv := none } := rfl

/-! ## C2: selecting a conversation id absent from the fetched set -/

/-- C2 counterexample: a selector change to id 5, which is absent from the
freshly fetched (empty) conversation set of the user, does not reset the
session to the new-conversation state: `conversation_id` becomes `some 5`,
not `none`. -/
theorem c2_counterexample :
    (list_conversations demo_store demo_session.user_id).map ConvRow.id = [] ∧
    selector_change demo_session demo_store (some 5) =
      { demo_session with pick_conv := some 5, conversation_id := some 5, messages := some [] } ∧
    (selector_change demo_session demo_store (some 5)).conversation_id ≠ none := by
  refine ⟨rfl, rfl, by decide⟩

/-- C2 (amended): a selector change event to a conversation id with no
stored messages (in particular one deleted or never created) sets
`current_conversation_id` to that id and `message_log` to `[]` — the load
of the missing conversation returns no rows — and does not crash; the
session is NOT reset to the new-conversation state
(`current_conversation_id` is not null). -/
theorem c2_amended (s : SessionState) (st : Store) (c : Nat)
    (h : ∀ mm ∈ st.msgs, mm.conversation_id ≠ c) :
    selector_change s st (some c) =
      { s with pick_conv := some c, conversation_id := some c, messages := some [] } ∧
    (selector_change s st (some c)).conversation_id ≠ none := by
  have hload : load_messages st c = [] := by
    unfold load_messages
    rw [List.filter_eq_nil_iff.mpr, List.map_nil]
    intro a ha
    simp only [Bool.and_eq_true, beq_iff_eq, not_and]
    intro hc
    exact absurd hc (h a ha)
  constructor
  · simp [selector_change, handle_conv_change, hload]
  · simp [selector_change, handle_conv_change]

/-- C2 witness: the amended statement at the concrete absent id 5. -/
theorem c2_witness :
    selector_change demo_session demo_store (some 5) =
      { demo_session with pick_conv := some 5, conversation_id := some 5, messages := some [] } :=
  (c2_amended demo_session demo_store 5 (by decide)).1

end App

namespace App

/-! ## C3: selector/conversation-id synchronization -/

/-- C3 counterexample: immediately after new-conversation creation during
the first message (`ensure_conv_for_first_msg`) the selector is NOT equal
to `current_conversation_id` — it stays at the new-conversation sentinel
`none` while the id becomes `some 0` — and the divergence persists to the
end of that interaction cycle: after the whole `chat_tab` run the cycle
ends with `pick_conv = none` but `conversation_id = some 0`. -/
theorem c3_counterexample :
    (ensure_conv_for_first_msg demo_session demo_store).1.pick_conv = none ∧
    (ensure_conv_for_first_msg demo_session demo_store).1.conversation_id = some 0 ∧
    ((none : Option Nat) ≠ some 0) ∧
    (chat_tab demo_session demo_store (some "hi") (ApiOutcome.ok (Json.obj []))).map
        (fun r => (r.session.pick_conv, r.session.conversation_id))
      = some (none, some 0) := by
  refine ⟨rfl, rfl, by decide, by decide⟩

/-- C3 (amended): immediately after a selector change event, after
sign-out, and after the start-of-cycle reconciliation, `selector_value`
equals `current_conversation_id`; but new-conversation creation during the
first message does not update the selector — `pick_conv` keeps its prior
value (the new-conversation sentinel) and diverges from the fresh
`current_conversation_id` for the rest of that cycle, being resolved only
at the start of the next cycle when `sidebar_history` forces
`pick_conv := conversation_id`. -/
theorem c3_amended (s : SessionState) (st : Store) (v : Option Nat) :
    (selector_change s st v).pick_conv = (selector_change s st v).conversation_id ∧
    (sign_out s).pick_conv = (sign_out s).conversation_id ∧
    (sidebar_reconcile s).pick_conv = (sidebar_reconcile s).conversation_id ∧
    (s.conversation_id = none →
      (ensure_conv_for_first_msg s st).1.pick_conv = s.pick_conv ∧
      (ensure_conv_for_first_msg s st).1.conversation_id = some st.next_conv_id) := by
  refine ⟨?_, rfl, ?_, ?_⟩
  · cases v <;> simp [selector_change, handle_conv_change]
  · unfold sidebar_reconcile
    split
    · simp
    · rename_i h
      exact not_ne_iff.mp h
  · intro h
    simp [ensure_conv_for_first_msg, create_conversation, h]

/-- C3 witness: the amended statement instantiated where a conversation is
created (the divergent case made concrete). -/
theorem c3_witness :
    (ensure_conv_for_first_msg demo_session demo_store).1.pick_conv = demo_session.pick_conv ∧
    (ensure_conv_for_first_msg demo_session demo_store).1.conversation_id
      = some demo_store.next_conv_id :=
  (c3_amended demo_session demo_store none).2.2.2 rfl

/-! ## C6: the composed wire request -/

set_option maxRecDepth 10000 in
/-- C6 counterexample: with a non-empty context the wire query does NOT
start with the fixed instruction text — the context comes first.  For
context `"CTX"` and user text `"X"`, `fetch_research` sends
`"CTX\n\nget query for this\n\nX"`, whose first characters are not the
instruction text, contradicting the claimed order
(instruction, then context, then user text). -/
theorem c6_counterexample :
    combined_query (QUERY_PREFIX ++ "X") "CTX" = "CTX\n\nget query for this\n\nX" ∧
    fetch_research_payload (QUERY_PREFIX ++ "X") "CTX"
      = Json.obj [("query", Json.str "CTX\n\nget query for this\n\nX")] ∧
    ("CTX\n\nget query for this\n\nX").take QUERY_PREFIX.length ≠ QUERY_PREFIX := by
  refine ⟨rfl, rfl, by decide⟩

/-- C6 (amended): the request is a single JSON field `{query: string}` with
no separate structured fields for context or instruction; its value is the
fixed instruction text followed by the user's text when the context is
empty, and otherwise the prior-turn context, then the instruction text,
then the user's text (the context precedes the instruction, not the other
way round).  `chat_tab` sends exactly this payload, with the context built
from the log after the user's message was appended. -/
theorem c6_amended (input context : String) (cur : List Msg) (m : String) :
    fetch_research_payload (QUERY_PREFIX ++ input) context =
      Json.obj [("query", Json.str
        (if context = "" then QUERY_PREFIX ++ input
         else (context ++ "\n\n") ++ (QUERY_PREFIX ++ input)))] ∧
    chat_tab_wire cur m =
      fetch_research_payload (QUERY_PREFIX ++ m) (build_context (cur ++ [⟨"user", m⟩]) 3) := by
  constructor
  · unfold fetch_research_payload combined_query
    split <;> simp [String.append_assoc]
  · rfl

/-! ## C9: the Context Builder -/

theorem c9_msgs_eq (l : List Msg) (n : Nat) (hn : 0 < n) :
    build_context_msgs l n = l.drop (l.length - 2 * n) := by
  have h2 : ¬ (2 * n = 0) := by omega
  simp [build_context_msgs, py_slice_last, h2]

/-- C9: for a log of length `L` and window `n > 0`, `build_context` keeps
exactly `min L (2 n)` messages — the last `min L (2 n)` ones, a suffix of
the log, hence in chronological order — and renders each as a role-tagged
line matching the stored role, joined with newlines; the empty log gives
the empty string; the builder is a pure function of the log and window. -/
theorem c9_build_context (l : List Msg) (n : Nat) (hn : 0 < n) :
    (build_context_msgs l n).length = min l.length (2 * n) ∧
    build_context_msgs l n = l.drop (l.length - 2 * n) ∧
    build_context_msgs l n <:+ l ∧
    build_context l n = String.intercalate "\n" ((build_context_msgs l n).map role_line) ∧
    build_context [] n = "" ∧
    (∀ c, role_line ⟨"user", c⟩ = "USER: " ++ c) ∧
    (∀ c, role_line ⟨"assistant", c⟩ = "ASSISTANT: " ++ c) := by
  have hm := c9_msgs_eq l n hn
  refine ⟨?_, hm, ?_, rfl, ?_, fun c => rfl, fun c => rfl⟩
  · rw [hm, List.length_drop]
    omega
  · rw [hm]
    exact List.drop_suffix _ _
  · rw [build_context, c9_msgs_eq [] n hn]
    simp only [List.drop_nil, List.map_nil]
    rfl

/-- C9 witness: the statement at a concrete two-message log and the default
window 3. -/
theorem c9_witness :
    (build_context_msgs [⟨"user", "a"⟩, ⟨"assistant", "b"⟩] 3).length
      = min ([⟨"user", "a"⟩, ⟨"assistant", "b"⟩] : List Msg).length (2 * 3) :=
  (c9_build_context [⟨"user", "a"⟩, ⟨"assistant", "b"⟩] 3 (by decide)).1

end App

namespace App

/-! ## Path lemmas for `chat_tab` -/

theorem chat_tab_falsy_eq (s : SessionState) (st : Store) (cur : List Msg)
    (api : ApiOutcome) (hcur : s.messages = some cur) :
    chat_tab s st none api = some ⟨s, st, false⟩ ∧
    chat_tab s st (some "") api = some ⟨s, st, false⟩ := by
  constructor <;> simp [chat_tab, hcur]

theorem chat_tab_whitespace_eq (s : SessionState) (st : Store) (cur : List Msg) (m : String)
    (api : ApiOutcome) (hcur : s.messages = some cur) (hm : ¬ m = "")
    (hms : py_strip m = "") :
    chat_tab s st (some m) api =
      some ⟨{ (ensure_conv_for_first_msg s st).1 with messages := some (cur ++ [⟨"user", m⟩]) },
            save_message (ensure_conv_for_first_msg s st).2 (ensure_cid s st) "user" m, false⟩ := by
  cases hc : s.conversation_id with
  | none =>
      simp [chat_tab, hcur, hm, hms, ensure_conv_for_first_msg, ensure_cid,
        create_conversation, hc]
  | some c =>
      simp [chat_tab, hcur, hm, hms, ensure_conv_for_first_msg, ensure_cid, hc]

theorem chat_tab_fail_eq (s : SessionState) (st : Store) (cur : List Msg) (m : String)
    (api : ApiOutcome) (hcur : s.messages = some cur) (hm : ¬ m = "")
    (hms : ¬ py_strip m = "")
    (hfail : api = ApiOutcome.raise
      ∨ (∃ rj, api = ApiOutcome.ok rj ∧ rj.isObj = false)
      ∨ (∃ rj, api = ApiOutcome.ok rj ∧ rj.isObj = true
           ∧ (rj.get "success" (Json.bool true)).truthy = false)) :
    chat_tab s st (some m) api =
      some ⟨{ (ensure_conv_for_first_msg s st).1 with messages := some (cur ++ [⟨"user", m⟩]) },
            save_message (save_message (ensure_conv_for_first_msg s st).2 (ensure_cid s st) "user" m)
              (ensure_cid s st) "assistant" err_msg, true⟩ := by
  rcases hfail with rfl | ⟨rj, rfl, hro⟩ | ⟨rj, rfl, hro, hsf⟩
  · cases hc : s.conversation_id <;>
      simp [chat_tab, hcur, hm, hms, ensure_conv_for_first_msg, ensure_cid,
        create_conversation, hc]
  · cases hc : s.conversation_id <;>
      simp [chat_tab, hcur, hm, hms, hro, ensure_conv_for_first_msg, ensure_cid,
        create_conversation, hc]
  · cases hc : s.conversation_id <;>
      simp [chat_tab, hcur, hm, hms, hro, hsf, ensure_conv_for_first_msg, ensure_cid,
        create_conversation, hc]

theorem chat_tab_ok_eq (s : SessionState) (st : Store) (cur : List Msg) (m : String)
    (rj : Json) (amsg : String) (hcur : s.messages = some cur) (hm : ¬ m = "")
    (hms : ¬ py_strip m = "") (hro : rj.isObj = true)
    (hst : (rj.get "success" (Json.bool true)).truthy = true)
    (hcomp : composeOk rj = some amsg) :
    chat_tab s st (some m) (ApiOutcome.ok rj) =
      some ⟨{ (ensure_conv_for_first_msg s st).1 with
                messages := some (cur ++ [⟨"user", m⟩, ⟨"assistant", amsg⟩]) },
            save_message (save_message (ensure_conv_for_first_msg s st).2 (ensure_cid s st) "user" m)
              (ensure_cid s st) "assistant" amsg, true⟩ := by
  cases hc : s.conversation_id <;>
    simp [chat_tab, hcur, hm, hms, hro, hst, hcomp, ensure_conv_for_first_msg, ensure_cid,
      create_conversation, hc]

theorem chat_tab_crash_eq (s : SessionState) (st : Store) (cur : List Msg) (m : String)
    (rj : Json) (hcur : s.messages = some cur) (hm : ¬ m = "")
    (hms : ¬ py_strip m = "") (hro : rj.isObj = true)
    (hst : (rj.get "success" (Json.bool true)).truthy = true)
    (hcomp : composeOk rj = none) :
    chat_tab s st (some m) (ApiOutcome.ok rj) = none := by
  cases hc : s.conversation_id <;>
    simp [chat_tab, hcur, hm, hms, hro, hst, hcomp, ensure_conv_for_first_msg,
      create_conversation, hc]

theorem load_messages_save_last (st : Store) (cid : Nat) (role content : String) :
    (load_messages (save_message st cid role content) cid).getLast? = some ⟨role, content⟩ := by
  simp [load_messages, save_message, List.filter_append, List.map_append, List.getLast?_concat]

/-- Every completed run of `chat_tab` on a truthy input leaves a selected
conversation id and the in-memory log equal to the prior log plus the user
message, possibly plus one assistant message. -/
theorem chat_tab_some_shape (s : SessionState) (st : Store) (cur : List Msg) (m : String)
    (api : ApiOutcome) (r : CycleResult)
    (hcur : s.messages = some cur) (hm : ¬ m = "")
    (hr : chat_tab s st (some m) api = some r) :
    r.session.conversation_id = some (ensure_cid s st) ∧
    (r.session.messages = some (cur ++ [⟨"user", m⟩]) ∨
     ∃ amsg, r.session.messages = some (cur ++ [⟨"user", m⟩, ⟨"assistant", amsg⟩])) := by
  by_cases hms : py_strip m = ""
  · rw [chat_tab_whitespace_eq s st cur m api hcur hm hms] at hr
    obtain rfl := (Option.some.inj hr).symm
    exact ⟨ensure_conv_id_eq s st, Or.inl rfl⟩
  · cases api with
    | raise =>
        rw [chat_tab_fail_eq s st cur m _ hcur hm hms (Or.inl rfl)] at hr
        obtain rfl := (Option.some.inj hr).symm
        exact ⟨ensure_conv_id_eq s st, Or.inl rfl⟩
    | ok rj =>
        by_cases hro : rj.isObj = true
        · by_cases hst : (rj.get "success" (Json.bool true)).truthy = true
          · cases hcomp : composeOk rj with
            | none =>
                rw [chat_tab_crash_eq s st cur m rj hcur hm hms hro hst hcomp] at hr
                exact absurd hr (by simp)
            | some amsg =>
                rw [chat_tab_ok_eq s st cur m rj amsg hcur hm hms hro hst hcomp] at hr
                obtain rfl := (Option.some.inj hr).symm
                exact ⟨ensure_conv_id_eq s st, Or.inr ⟨amsg, rfl⟩⟩
          · rw [chat_tab_fail_eq s st cur m _ hcur hm hms
                (Or.inr (Or.inr ⟨rj, rfl, hro, by simpa using hst⟩))] at hr
            obtain rfl := (Option.some.inj hr).symm
            exact ⟨ensure_conv_id_eq s st, Or.inl rfl⟩
        · rw [chat_tab_fail_eq s st cur m _ hcur hm hms
              (Or.inr (Or.inl ⟨rj, rfl, by simpa using hro⟩))] at hr
          obtain rfl := (Option.some.inj hr).symm
          exact ⟨ensure_conv_id_eq s st, Or.inl rfl⟩

end App

namespace App

/-! ## C1: empty and whitespace-only input -/

/-- C1 counterexample: a whitespace-only (but non-empty) input is NOT a
no-op.  On a fresh logged-in session with no conversation, submitting `" "`
creates a Conversation, persists the user Message to the store and appends
it to the in-memory log — only the external call is skipped. -/
theorem c1_counterexample :
    (chat_tab demo_session demo_store (some " ") ApiOutcome.raise).map
        (fun r => (r.store.convs.length, r.store.msgs.length, r.session.messages, r.api_called))
      = some (1, 1, some [⟨"user", " "⟩], false) ∧
    demo_store.convs.length = 0 ∧
    demo_store.msgs.length = 0 ∧
    demo_session.messages = some [] ∧
    (some [(⟨"user", " "⟩ : Msg)] ≠ some ([] : List Msg)) := by
  refine ⟨by decide, rfl, rfl, rfl, by decide⟩

/-- C1 (amended): an input of `None` or the empty string is rejected as a
no-op with no state change and no external call; a whitespace-only
non-empty input, however, is only partially rejected: it still creates a
Conversation when none is selected, persists the user message to the store
and appends it to the in-memory log — only the external service call is
skipped (and no assistant message is produced). -/
theorem c1_input_handling (s : SessionState) (st : Store) (cur : List Msg) (m : String)
    (api : ApiOutcome) (hcur : s.messages = some cur) :
    chat_tab s st none api = some ⟨s, st, false⟩ ∧
    chat_tab s st (some "") api = some ⟨s, st, false⟩ ∧
    (m ≠ "" → py_strip m = "" →
      chat_tab s st (some m) api =
        some ⟨{ (ensure_conv_for_first_msg s st).1 with messages := some (cur ++ [⟨"user", m⟩]) },
              save_message (ensure_conv_for_first_msg s st).2 (ensure_cid s st) "user" m, false⟩) :=
  ⟨(chat_tab_falsy_eq s st cur api hcur).1, (chat_tab_falsy_eq s st cur api hcur).2,
   fun hm hms => chat_tab_whitespace_eq s st cur m api hcur hm hms⟩

/-- C1 witness: the amended statement at the concrete whitespace input `" "`
on a fresh logged-in session. -/
theorem c1_witness :
    chat_tab demo_session demo_store (some " ") ApiOutcome.raise =
      some ⟨{ (ensure_conv_for_first_msg demo_session demo_store).1 with
                messages := some ([] ++ [⟨"user", " "⟩]) },
            save_message (ensure_conv_for_first_msg demo_session demo_store).2
              (ensure_cid demo_session demo_store) "user" " ", false⟩ :=
  (c1_input_handling demo_session demo_store [] " " ApiOutcome.raise rfl).2.2
    (by decide) (by decide)

/-! ## C4: failure handling at the pipeline boundary -/

/-- C4: on every failing pipeline run — the external call raised, the
payload is not an object, or the response declares `success = false` —
`chat_tab` returns normally (no exception escapes), the fixed error text is
persisted to the store as the final assistant Message, the in-memory log
gains only the user's message, and the user's message persisted before the
call is still in the store (no rollback). -/
theorem c4_failure_handling (s : SessionState) (st : Store) (cur : List Msg) (m : String)
    (api : ApiOutcome) (hcur : s.messages = some cur) (hm : ¬ m = "")
    (hms : ¬ py_strip m = "")
    (hfail : api = ApiOutcome.raise
      ∨ (∃ rj, api = ApiOutcome.ok rj ∧ rj.isObj = false)
      ∨ (∃ rj, api = ApiOutcome.ok rj ∧ rj.isObj = true
           ∧ (rj.get "success" (Json.bool true)).truthy = false)) :
    chat_tab s st (some m) api =
      some ⟨{ (ensure_conv_for_first_msg s st).1 with messages := some (cur ++ [⟨"user", m⟩]) },
            save_message (save_message (ensure_conv_for_first_msg s st).2 (ensure_cid s st) "user" m)
              (ensure_cid s st) "assistant" err_msg, true⟩ ∧
    (⟨ensure_cid s st, "user", m, "active"⟩ : StoredMsg) ∈
      (save_message (save_message (ensure_conv_for_first_msg s st).2 (ensure_cid s st) "user" m)
        (ensure_cid s st) "assistant" err_msg).msgs ∧
    (save_message (save_message (ensure_conv_for_first_msg s st).2 (ensure_cid s st) "user" m)
        (ensure_cid s st) "assistant" err_msg).msgs.getLast? =
      some ⟨ensure_cid s st, "assistant", err_msg, "active"⟩ := by
  refine ⟨chat_tab_fail_eq s st cur m api hcur hm hms hfail, ?_, ?_⟩
  · simp [save_message]
  · simp [save_message, List.getLast?_concat]

/-- C4 witness: the statement at a concrete raising call. -/
theorem c4_witness :
    chat_tab demo_session demo_store (some "hi") ApiOutcome.raise =
      some ⟨{ (ensure_conv_for_first_msg demo_session demo_store).1 with
                messages := some ([] ++ [⟨"user", "hi"⟩]) },
            save_message (save_message (ensure_conv_for_first_msg demo_session demo_store).2
                (ensure_cid demo_session demo_store) "user" "hi")
              (ensure_cid demo_session demo_store) "assistant" err_msg, true⟩ :=
  (c4_failure_handling demo_session demo_store [] "hi" ApiOutcome.raise rfl
    (by decide) (by decide) (Or.inl rfl)).1

/-! ## C5: parsing of the service response -/

/-- C5 counterexample: a JSON object lacking the top-level `success` field
is interpreted as a SUCCESS, not a failure: on response `{}` the pipeline
takes the success branch, appending an (empty) composed assistant message
to both the in-memory log and the store — not the fixed error text. -/
theorem c5_counterexample :
    (chat_tab demo_session demo_store (some "hi") (ApiOutcome.ok (Json.obj []))).map
        (fun r => (r.session.messages, r.store.msgs.map fun mm => (mm.role, mm.content)))
      = some (some [⟨"user", "hi"⟩, ⟨"assistant", ""⟩],
              [("user", "hi"), ("assistant", "")]) ∧
    ("" : String) ≠ err_msg := by
  refine ⟨by decide, by decide⟩

/-- C5 (amended): parsing is strict about the top-level shape (a non-object
payload is a failure) and about an explicit `success = false`, but it is
lenient about a missing `success` field: `result.get("success", True)`
defaults to `True`, so an object without the field is treated as a success
and the success composition runs. -/
theorem c5_missing_success_lenient (s : SessionState) (st : Store) (cur : List Msg)
    (m : String) (fs : List (String × Json)) (amsg : String)
    (hcur : s.messages = some cur) (hm : ¬ m = "") (hms : ¬ py_strip m = "")
    (hns : fs.find? (fun p => p.1 == "success") = none)
    (hcomp : composeOk (Json.obj fs) = some amsg) :
    chat_tab s st (some m) (ApiOutcome.ok (Json.obj fs)) =
      some ⟨{ (ensure_conv_for_first_msg s st).1 with
                messages := some (cur ++ [⟨"user", m⟩, ⟨"assistant", amsg⟩]) },
            save_message (save_message (ensure_conv_for_first_msg s st).2 (ensure_cid s st) "user" m)
              (ensure_cid s st) "assistant" amsg, true⟩ := by
  have hst : ((Json.obj fs).get "success" (Json.bool true)).truthy = true := by
    simp [Json.get, hns, Json.truthy]
  exact chat_tab_ok_eq s st cur m (Json.obj fs) amsg hcur hm hms rfl hst hcomp

/-- C5 witness: the amended statement at the concrete response `{}`. -/
theorem c5_witness :
    chat_tab demo_session demo_store (some "hi") (ApiOutcome.ok (Json.obj [])) =
      some ⟨{ (ensure_conv_for_first_msg demo_session demo_store).1 with
                messages := some ([] ++ [⟨"user", "hi"⟩, ⟨"assistant", ""⟩]) },
            save_message (save_message (ensure_conv_for_first_msg demo_session demo_store).2
                (ensure_cid demo_session demo_store) "user" "hi")
              (ensure_cid demo_session demo_store) "assistant" "", true⟩ :=
  c5_missing_success_lenient demo_session demo_store [] "hi" [] "" rfl
    (by decide) (by decide) rfl rfl

/-! ## C10: store/log divergence on failure, agreement on success -/

/-- C10: on every failure branch the fixed error text is written to the
store as an assistant message but NOT appended to the in-memory log — so
the log (prior log plus the user message only) differs from what a reload
of the conversation from the store would give — whereas on the success
branch the composed assistant message is appended to both the log and the
store. -/
theorem c10_store_log_divergence (s : SessionState) (st : Store) (cur : List Msg)
    (m : String) (api : ApiOutcome) (rj : Json) (amsg : String)
    (hcur : s.messages = some cur) (hm : ¬ m = "") (hms : ¬ py_strip m = "") :
    (api = ApiOutcome.raise
      ∨ (∃ r2, api = ApiOutcome.ok r2 ∧ r2.isObj = false)
      ∨ (∃ r2, api = ApiOutcome.ok r2 ∧ r2.isObj = true
           ∧ (r2.get "success" (Json.bool true)).truthy = false) →
      chat_tab s st (some m) api =
        some ⟨{ (ensure_conv_for_first_msg s st).1 with messages := some (cur ++ [⟨"user", m⟩]) },
              save_message (save_message (ensure_conv_for_first_msg s st).2 (ensure_cid s st) "user" m)
                (ensure_cid s st) "assistant" err_msg, true⟩ ∧
      cur ++ [⟨"user", m⟩] ≠
        load_messages (save_message (save_message (ensure_conv_for_first_msg s st).2
            (ensure_cid s st) "user" m) (ensure_cid s st) "assistant" err_msg)
          (ensure_cid s st)) ∧
    (rj.isObj = true → (rj.get "success" (Json.bool true)).truthy = true →
      composeOk rj = some amsg →
      chat_tab s st (some m) (ApiOutcome.ok rj) =
        some ⟨{ (ensure_conv_for_first_msg s st).1 with
                  messages := some (cur ++ [⟨"user", m⟩, ⟨"assistant", amsg⟩]) },
              save_message (save_message (ensure_conv_for_first_msg s st).2 (ensure_cid s st) "user" m)
                (ensure_cid s st) "assistant" amsg, true⟩) := by
  constructor
  · intro hfail
    refine ⟨chat_tab_fail_eq s st cur m api hcur hm hms hfail, ?_⟩
    intro h
    have h2 := congrArg List.getLast? h
    rw [List.getLast?_concat, load_messages_save_last] at h2
    have h3 : "user" = "assistant" := congrArg Msg.role (Option.some.inj h2)
    exact absurd h3 (by decide)
  · intro hro hst hcomp
    exact chat_tab_ok_eq s st cur m rj amsg hcur hm hms hro hst hcomp

/-- C10 witness: the success side of the statement at the concrete
response `{}`. -/
theorem c10_witness :
    chat_tab demo_session demo_store (some "hi") (ApiOutcome.ok (Json.obj [])) =
      some ⟨{ (ensure_conv_for_first_msg demo_session demo_store).1 with
                messages := some ([] ++ [⟨"user", "hi"⟩, ⟨"assistant", ""⟩]) },
            save_message (save_message (ensure_conv_for_first_msg demo_session demo_store).2
                (ensure_cid demo_session demo_store) "user" "hi")
              (ensure_cid demo_session demo_store) "assistant" "", true⟩ :=
  (c10_store_log_divergence demo_session demo_store [] "hi" ApiOutcome.raise (Json.obj []) ""
    rfl (by decide) (by decide)).2 rfl rfl rfl

/-! ## C7: the null-id/empty-log invariant -/

/-- C7 counterexample: after sign-out — one of the claimed state-mutating
operations — `current_conversation_id` is null but `message_log` is not
`[]`: it is `None`, so the claimed equivalence fails. -/
theorem c7_counterexample :
    (sign_out c8_state).conversation_id = none ∧
    (sign_out c8_state).messages ≠ some [] ∧
    (sign_out c8_state).messages = none := by
  refine ⟨rfl, by decide, rfl⟩

/-- C7 (amended): the two fields are not always set together.  The
equivalence holds after a selector change to the new-conversation sentinel
(id null, log `[]`) and at the end of every completed pipeline run on a
truthy input (id set, log non-empty); but sign-out sets `message_log` to
`None` rather than `[]` while the id is null, new-conversation creation
sets the id before any message is appended, and a selector change to a
conversation with no loadable messages leaves a non-null id with an empty
log. -/
theorem c7_null_iff_empty (s : SessionState) (st : Store) (cur : List Msg) (m : String)
    (api : ApiOutcome) (r : CycleResult)
    (hcur : s.messages = some cur) (hm : ¬ m = "")
    (hr : chat_tab s st (some m) api = some r) :
    ((selector_change s st none).conversation_id = none ∧
     (selector_change s st none).messages = some []) ∧
    ((sign_out s).conversation_id = none ∧ (sign_out s).messages = none) ∧
    (r.session.conversation_id ≠ none ∧
     r.session.messages ≠ some [] ∧ r.session.messages ≠ none) := by
  obtain ⟨hcid, hmsgs⟩ := chat_tab_some_shape s st cur m api r hcur hm hr
  refine ⟨⟨rfl, rfl⟩, ⟨rfl, rfl⟩, ?_, ?_, ?_⟩
  · rw [hcid]
    simp
  · rcases hmsgs with h | ⟨amsg, h⟩ <;> rw [h] <;> simp
  · rcases hmsgs with h | ⟨amsg, h⟩ <;> rw [h] <;> simp

/-- The completed cycle used by the C7 witness. -/
def c7_r : CycleResult :=
  (chat_tab demo_session demo_store (some "hi") ApiOutcome.raise).getD
    ⟨demo_session, demo_store, false⟩

/-- C7 witness: the amended statement at a concrete completed cycle. -/
theorem c7_witness :
    ((selector_change demo_session demo_store none).conversation_id = none ∧
     (selector_change demo_session demo_store none).messages = some []) ∧
    ((sign_out demo_session).conversation_id = none ∧
     (sign_out demo_session).messages = none) ∧
    (c7_r.session.conversation_id ≠ none ∧
     c7_r.session.messages ≠ some [] ∧ c7_r.session.messages ≠ none) :=
  c7_null_iff_empty demo_session demo_store [] "hi" ApiOutcome.raise c7_r rfl
    (by decide) (by decide)

end App
